import Mathlib

/-!
Verification of the lifecycle controller in `src/childBridgeFork.ts`
(homebridge child-bridge fork script).

The script is embedded shallowly: each method of `ChildBridgeFork`, the
IPC message dispatcher, the signal handler and the liveness monitor become
pure Lean functions.  Calls into external collaborators (`BridgeService`,
`PluginManager`, `Logger`, `process.send`, timers) are recorded as actions
in explicit traces, or as counters/flags in an explicit state record, so
that ordering and at-most-once properties can be stated and proved.
-/

namespace ChildBridge

/-- JavaScript truthiness for an optional string value: `undefined`/absent
and the empty string are falsy (`!x` is true, `x || y` falls through). -/
def jsTruthy : Option String → Option String
  | none => none
  | some s => if s = "" then none else some s

/-- The two plugin kinds distinguished by `this.type` in `startBridge`
(`PluginType.PLATFORM` / `PluginType.ACCESSORY`). -/
inductive PluginType
  | platform
  | accessory
deriving DecidableEq, Repr

/-- Which capability the constructed platform instance exposes, as probed
by `HomebridgeAPI.isDynamicPlatformPlugin` / `isStaticPlatformPlugin`;
`independentPlatform` is the fall-through else branch. -/
inductive PlatformCapability
  | dynamicPlatform
  | staticPlatform
  | independentPlatform
deriving DecidableEq, Repr

/-- Observable calls `startBridge` makes into its collaborators, in
source order. -/
inductive Action
  | loadCachedFromDisk
  | constructPlatform (displayName : String)
  | assignDynamicPlatform (identifier : String)
  | loadPlatformAccessories (identifier : String)
  | warnMissingName (identifier : String)
  | constructAccessory (displayName : String)
  | createHAPAccessory (displayName identifier : String) (uuidBase : Option String)
  | addBridgedAccessory
  | logEmptyServices (identifier : String)
  | restoreCachedPlatformAccessories
  | publishBridge
  | signalFinished
deriving DecidableEq, Repr

/-- The data `startBridge` reads: the fields of `ChildBridgeFork` set by
`loadPlugin`, plus the outcomes of the external probes it branches on
(`pluginConfig` name, the platform capability checks, whether
`createHAPAccessory` returned an accessory). -/
structure StartEnv where
  type : PluginType
  identifier : String
  /-- `this.pluginConfig?.name`; `none` models an absent field. -/
  pluginConfigName : Option String
  /-- `plugin.getPluginIdentifier()`. -/
  pluginIdentifier : String
  /-- `this.pluginConfig.uuid_base`. -/
  uuidBase : Option String
  /-- what the constructed platform instance turns out to expose. -/
  capability : PlatformCapability
  /-- whether `bridgeService.createHAPAccessory` returned an accessory
  (`undefined` when the accessory exposes no services). -/
  hapAccessoryCreated : Bool
deriving DecidableEq, Repr

/-- The branch on `this.type` inside `startBridge` (lines 115-152).
Returns the actions performed by the branch and `false` when the branch
executes the early `return` statement (missing accessory display name),
`true` when control reaches the code after the branch. -/
def startBranch (e : StartEnv) : List Action × Bool :=
  match e.type with
  | PluginType.platform =>
    let displayName := (jsTruthy e.pluginConfigName).getD e.pluginIdentifier
    (Action.constructPlatform displayName ::
      match e.capability with
      | PlatformCapability.dynamicPlatform => [Action.assignDynamicPlatform e.identifier]
      | PlatformCapability.staticPlatform => [Action.loadPlatformAccessories e.identifier]
      | PlatformCapability.independentPlatform => [],
     true)
  | PluginType.accessory =>
    match jsTruthy e.pluginConfigName with
    | none => ([Action.warnMissingName e.identifier], false)
    | some displayName =>
      (Action.constructAccessory displayName ::
        Action.createHAPAccessory displayName e.identifier e.uuidBase ::
        (if e.hapAccessoryCreated then [Action.addBridgedAccessory]
         else [Action.logEmptyServices e.identifier]),
       true)

/-- `ChildBridgeFork.startBridge` (lines 103-159) as the trace of calls it
makes: construct the `BridgeService`, load the cached accessories, run the
type branch, and — only if the branch did not `return` early — restore the
cached accessories, publish the bridge and signal the API that loading
finished. -/
def startBridge (e : StartEnv) : List Action :=
  Action.loadCachedFromDisk :: (startBranch e).1 ++
    (if (startBranch e).2 then
      [Action.restoreCachedPlatformAccessories, Action.publishBridge, Action.signalFinished]
     else [])

/-- The subset of `BridgeOptions` that `loadPlugin` inspects (lines 69-83). -/
structure BridgeOptions where
  noLogTimestamps : Bool
  debugModeEnabled : Bool
  forceColourLogging : Bool
  customStoragePath : Option String
deriving DecidableEq, Repr

/-- The fields of the `ChildProcessLoadEventData` payload that produce
observable behaviour in `loadPlugin`. -/
structure ChildProcessLoadEventData where
  type : PluginType
  identifier : String
  pluginPath : String
  bridgeOptions : BridgeOptions
deriving DecidableEq, Repr

/-- Observable side effects of `loadPlugin`, in source order. -/
inductive LoadAction
  | deleteBridgeKey
  | setTimestampEnabled (b : Bool)
  | setDebugEnabled (b : Bool)
  | forceColor
  | setStoragePath (p : String)
  | setHAPCustomStoragePath
  | constructHomebridgeAPI
  | constructPluginManager
  | loadPluginByPath (p : String)
  | pluginLoad
  | initializePlugin (identifier : String)
  | setProcessTitle
  | sendLoaded
deriving DecidableEq, Repr

/-- The conditional option applications of `loadPlugin` lines 69-83: each
bridge option flag, when set, mutates process-wide `Logger`/`User`
configuration. -/
def optionApplications (b : BridgeOptions) : List LoadAction :=
  (if b.noLogTimestamps then [LoadAction.setTimestampEnabled false] else []) ++
  (if b.debugModeEnabled then [LoadAction.setDebugEnabled true] else []) ++
  (if b.forceColourLogging then [LoadAction.forceColor] else []) ++
  (match jsTruthy b.customStoragePath with
   | some p => [LoadAction.setStoragePath p]
   | none => [])

/-- `ChildBridgeFork.loadPlugin` (lines 56-101) as the trace of its side
effects: strip the reserved `_bridge` key, apply the inherited bridge
options, point HAP storage at the user persist path, construct the
`HomebridgeAPI` and `PluginManager`, load and initialise the plugin,
retitle the process and send `LOADED`. -/
def loadPlugin (d : ChildProcessLoadEventData) : List LoadAction :=
  LoadAction.deleteBridgeKey :: optionApplications d.bridgeOptions ++
    [LoadAction.setHAPCustomStoragePath,
     LoadAction.constructHomebridgeAPI,
     LoadAction.constructPluginManager,
     LoadAction.loadPluginByPath d.pluginPath,
     LoadAction.pluginLoad,
     LoadAction.initializePlugin d.identifier,
     LoadAction.setProcessTitle,
     LoadAction.sendLoaded]

/-- True of the actions that apply a bridge runtime option to
process-wide configuration state. -/
def isOptionApplication : LoadAction → Bool
  | LoadAction.setTimestampEnabled _ => true
  | LoadAction.setDebugEnabled _ => true
  | LoadAction.forceColor => true
  | LoadAction.setStoragePath _ => true
  | _ => false

/-- The two termination signals the script registers handlers for
(lines 212-213), with the signal numbers bound at registration. -/
inductive Sig
  | SIGINT
  | SIGTERM
deriving DecidableEq, Repr

/-- The numeric bound with each handler registration:
`signalHandler.bind(undefined, "SIGINT", 2)` / `("SIGTERM", 15)`. -/
def sigNum : Sig → Nat
  | Sig.SIGINT => 2
  | Sig.SIGTERM => 15

/-- The string name bound with each handler registration. -/
def sigName : Sig → String
  | Sig.SIGINT => "SIGINT"
  | Sig.SIGTERM => "SIGTERM"

/-- Observable process/controller state shared by the module-level signal
handler and liveness monitor: the `shuttingDown` flag (line 194), a count
of `childPluginFork.shutdown()` invocations, a count of
`bridgeService.teardown()` invocations, the `Logger.internal` lines
emitted, and the `setTimeout` forced exits scheduled so far as
(delay in ms, exit code) pairs. -/
structure SigState where
  shuttingDown : Bool
  shutdownCalls : Nat
  teardownCalls : Nat
  logs : List String
  scheduledExits : List (Nat × Nat)
deriving DecidableEq, Repr

/-- Module state right after startup: `shuttingDown = false`, nothing
invoked, nothing scheduled. -/
def initState : SigState :=
  { shuttingDown := false
    shutdownCalls := 0
    teardownCalls := 0
    logs := []
    scheduledExits := [] }

/-- `ChildBridgeFork.shutdown` (lines 161-163): it unconditionally calls
`this.bridgeService.teardown()` — there is no guard inside the method.
`teardownRaises` is the behaviour of the external teardown call
(`none` = returns normally, `some m` = throws `m`); the exception, if
any, propagates out of `shutdown` to its caller, after the teardown
invocation has happened. -/
def shutdown (teardownRaises : Option String) (s : SigState) : SigState × Option String :=
  ({ s with shutdownCalls := s.shutdownCalls + 1
            teardownCalls := s.teardownCalls + 1 },
   teardownRaises)

/-- The module-level `signalHandler` (lines 195-210): return at once if
`shuttingDown` is already set; otherwise set the flag, log the signal,
call `childPluginFork.shutdown()` inside `try { } catch (e) { }` (the
caught exception is discarded), and schedule a forced `process.exit`
with code `128 + signalNum` after 5000 ms.  The second component is the
exception escaping the handler, always `none` because of the catch. -/
def signalHandler (teardownRaises : Option String) (sig : Sig) (s : SigState) :
    SigState × Option String :=
  if s.shuttingDown then (s, none)
  else
    let s1 := { s with shuttingDown := true
                       logs := s.logs ++
                         ["Got " ++ sigName sig ++ ", shutting down child bridge process..."] }
    let r := shutdown teardownRaises s1
    ({ r.1 with scheduledExits := r.1.scheduledExits ++ [(5000, 128 + sigNum sig)] }, none)

/-- Deliver a sequence of termination signals to the process, in order,
each handled by `signalHandler`. -/
def runSignals (teardownRaises : Option String) (sigs : List Sig) (s : SigState) : SigState :=
  sigs.foldl (fun st sig => (signalHandler teardownRaises sig st).1) s

/-- The interval of the orphan-detection timer (line 223), milliseconds. -/
def livenessIntervalMs : Nat := 5000

/-- One tick of the liveness monitor `setInterval` callback
(lines 218-223): if `process.connected` is false, log and
`process.exit(1)` immediately; otherwise do nothing.  The second
component is the immediate exit code, if any. -/
def livenessTick (connected : Bool) (s : SigState) : SigState × Option Nat :=
  if !connected then
    ({ s with logs := s.logs ++ ["Parent process not connected, terminating process..."] },
     some 1)
  else (s, none)

/-- Outbound message kinds of `ChildProcessMessageEventType` that this
script sends (`READY` from the constructor, `LOADED` from `loadPlugin`). -/
inductive MessageType
  | READY
  | LOAD
  | LOADED
  | START
deriving DecidableEq, Repr

/-- The envelope `process.send({ id: type, data })` transmits. -/
structure SentEnvelope (α : Type) where
  id : MessageType
  data : Option α

/-- The state of the IPC channel to the parent as Node exposes it to the
child: `process.send` stays defined for the whole life of a process that
was spawned with an IPC channel, while `process.connected` turns false
once either end disconnects.  The two differ exactly on a disconnected
channel. -/
structure ChannelState where
  hasSend : Bool
  connected : Bool
deriving DecidableEq, Repr

/-- `ChildBridgeFork.sendMessage` (lines 47-54).  The source only guards
on `process.send` being defined.  When it is undefined (the process has
no IPC channel) the call is silently skipped.  When it is defined and
the channel is still connected, `process.send` transmits the envelope
`\x7b id: type, data \x7d` as supplied.  When the channel exists but has
disconnected, the guard still passes and Node's `process.send` on a
closed channel emits an asynchronous ERR_IPC_CHANNEL_CLOSED error — and
this script registers no error listener, so that crashes the child; the
emitted error is the second component of the result. -/
def sendMessage {α : Type} (ch : ChannelState) (outbox : List (SentEnvelope α))
    (msgType : MessageType) (data : Option α) :
    List (SentEnvelope α) × Option String :=
  if ch.hasSend then
    if ch.connected then (outbox ++ [{ id := msgType, data := data }], none)
    else (outbox, some "ERR_IPC_CHANNEL_CLOSED")
  else (outbox, none)

/-- Inbound command id as seen by the `process.on("message")` switch:
`LOAD`, `START`, or any other (truthy) id that matches no case. -/
inductive InboundId
  | LOAD
  | START
  | otherId
deriving DecidableEq, Repr

/-- An inbound IPC message value as JavaScript classifies it.  `typeof`
yields "object" for genuine objects and also for `null`; every other
value (string, number, boolean, undefined, ...) is non-object.  For an
object, `id` is its `id` field (`none` models a missing or falsy id). -/
inductive JsMessage
  | nullMsg
  | nonObject
  | object (id : Option InboundId)
deriving DecidableEq, Repr

/-- What the dispatcher invoked on `childPluginFork`. -/
inductive DispatchAction
  | invokedLoadPlugin
  | invokedStartBridge
deriving DecidableEq, Repr

/-- Whether `loadPlugin` has run, i.e. whether the fork's fields
(`api`, `pluginManager`, `type`, ...) have been initialised. -/
inductive Phase
  | uninitialized
  | loaded
deriving DecidableEq, Repr

/-- The `process.on("message")` listener (lines 174-189).  The guard
`typeof message !== "object" || !message.id` returns for non-object
values and for objects with a missing/falsy id; `null`, however, has
`typeof "object"`, so evaluation goes on to read `message.id`, which
throws a `TypeError` on `null` — the listener crashes (`Except.error`).
The switch then dispatches `LOAD` to `childPluginFork.loadPlugin` and
`START` to `childPluginFork.startBridge`; other ids fall through.  No
case inspects the controller's current phase. -/
def onMessage (msg : JsMessage) (phase : Phase) :
    Except String (Phase × List DispatchAction) :=
  match msg with
  | JsMessage.nonObject => Except.ok (phase, [])
  | JsMessage.nullMsg => Except.error "TypeError: cannot read property id of null"
  | JsMessage.object none => Except.ok (phase, [])
  | JsMessage.object (some InboundId.LOAD) =>
      Except.ok (Phase.loaded, [DispatchAction.invokedLoadPlugin])
  | JsMessage.object (some InboundId.START) =>
      Except.ok (phase, [DispatchAction.invokedStartBridge])
  | JsMessage.object (some InboundId.otherId) => Except.ok (phase, [])

/-- True of the actions that construct the runtime adapter and its
persistence layer path: pointing HAP storage at the persist path and
constructing the `HomebridgeAPI` / `PluginManager`. -/
def isAdapterConstruction : LoadAction → Bool
  | LoadAction.setHAPCustomStoragePath => true
  | LoadAction.constructHomebridgeAPI => true
  | LoadAction.constructPluginManager => true
  | _ => false

/-- In a trace, no runtime-option application ever occurs after an
adapter-construction action: at every adapter-construction position, the
remainder of the trace is free of option applications. -/
def optionsBeforeAdapters : List LoadAction → Bool
  | [] => true
  | a :: l =>
    (if isAdapterConstruction a then l.all (fun b => !(isOptionApplication b)) else true) &&
    optionsBeforeAdapters l

/-! ### Helper lemmas shared by the claim theorems -/

/-- An option-application action is never an adapter-construction action. -/
theorem option_not_adapter (a : LoadAction) (h : isOptionApplication a = true) :
    isAdapterConstruction a = false := by
  cases a <;> simp_all [isOptionApplication, isAdapterConstruction]

/-- Every action emitted by the option-application block is an option
application. -/
theorem optionApplications_all (b : BridgeOptions) :
    (optionApplications b).all isOptionApplication = true := by
  obtain ⟨nt, dbg, fc, csp⟩ := b
  unfold optionApplications
  cases nt <;> cases dbg <;> cases fc <;> cases h : jsTruthy csp <;>
    simp [h, isOptionApplication]

/-- Prepending option applications preserves `optionsBeforeAdapters`. -/
theorem optionsBeforeAdapters_append_options (pre : List LoadAction) :
    ∀ l : List LoadAction, pre.all isOptionApplication = true →
      optionsBeforeAdapters l = true → optionsBeforeAdapters (pre ++ l) = true := by
  induction pre with
  | nil => intro l _ h2; simpa using h2
  | cons a t ih =>
    intro l h1 h2
    rw [List.all_cons, Bool.and_eq_true] at h1
    show optionsBeforeAdapters (a :: (t ++ l)) = true
    simp [optionsBeforeAdapters, option_not_adapter a h1.1, ih l h1.2 h2]

/-- A handler invocation on a state whose `shuttingDown` flag is already
set returns immediately without any effect. -/
theorem signalHandler_of_shuttingDown (r : Option String) (sig : Sig) (s : SigState)
    (h : s.shuttingDown = true) : signalHandler r sig s = (s, none) := by
  simp [signalHandler, h]

/-- After any handler invocation the `shuttingDown` flag is set. -/
theorem signalHandler_sets_flag (r : Option String) (sig : Sig) (s : SigState) :
    ((signalHandler r sig s).1).shuttingDown = true := by
  by_cases h : s.shuttingDown = true
  · simp [signalHandler_of_shuttingDown r sig s h, h]
  · simp [signalHandler, shutdown, h]

/-- Once `shuttingDown` is set, any further sequence of signals leaves
the state unchanged. -/
theorem runSignals_of_shuttingDown (r : Option String) (sigs : List Sig) (s : SigState)
    (h : s.shuttingDown = true) : runSignals r sigs s = s := by
  induction sigs with
  | nil => rfl
  | cons a l ih =>
    show runSignals r l (signalHandler r a s).1 = s
    rw [signalHandler_of_shuttingDown r a s h]
    exact ih

/-- On a not-yet-shutting-down state the handler sets the flag, logs,
runs `shutdown` once (one teardown invocation) and schedules the forced
exit for its own signal, returning no exception. -/
theorem signalHandler_of_fresh (r : Option String) (sig : Sig) (s : SigState)
    (h : s.shuttingDown = false) :
    signalHandler r sig s =
      ({ shuttingDown := true
         shutdownCalls := s.shutdownCalls + 1
         teardownCalls := s.teardownCalls + 1
         logs := s.logs ++ ["Got " ++ sigName sig ++ ", shutting down child bridge process..."]
         scheduledExits := s.scheduledExits ++ [(5000, 128 + sigNum sig)] }, none) := by
  simp [signalHandler, shutdown, h]

/-- Delivering a first signal followed by any further signals is the same
as delivering the first alone: the flag set on first receipt stalls the
rest. -/
theorem runSignals_cons_init (r : Option String) (sig : Sig) (rest : List Sig) :
    runSignals r (sig :: rest) initState = (signalHandler r sig initState).1 := by
  show runSignals r rest (signalHandler r sig initState).1 = (signalHandler r sig initState).1
  exact runSignals_of_shuttingDown r rest _ (signalHandler_sets_flag r sig initState)

/-! ### Claim theorems -/

/-- Claim C2, counterexample: the `shutdown` method itself has no guard —
invoking it twice on the fresh state invokes `bridgeService.teardown()`
twice, refuting "calling shutdown() twice invokes the runtime handle's
teardown call at most once" and the claimed idempotence of the method. -/
theorem shutdown_twice_tears_down_twice :
    ((shutdown none (shutdown none initState).1).1).teardownCalls = 2 ∧
    ¬ ((shutdown none (shutdown none initState).1).1).teardownCalls ≤ 1 := by
  constructor
  · rfl
  · decide

/-- Claim C2 (amended): across any sequence of delivered termination
signals — the only shutdown source in the program — `teardown` is invoked
at most once, because the signal handler's `shuttingDown` flag returns
before the second `shutdown()` call; `shutdown()` itself is unguarded. -/
theorem signals_teardown_at_most_once (r : Option String) (sigs : List Sig) :
    (runSignals r sigs initState).teardownCalls ≤ 1 := by
  cases sigs with
  | nil => exact Nat.zero_le 1
  | cons a l =>
    rw [runSignals_cons_init r a l, signalHandler_of_fresh r a initState rfl]
    simp [initState]

/-- Claim C4: for every invocation of the signal handler — the sole call
site of `shutdown()` — any exception the teardown raises is caught by the
`try`/`catch` and discarded: no exception escapes the handler, and the
handler's resulting state is independent of whether or what teardown
threw. -/
theorem shutdown_errors_swallowed (r : Option String) (sig : Sig) (s : SigState) :
    (signalHandler r sig s).2 = none ∧ signalHandler r sig s = signalHandler none sig s := by
  cases h : s.shuttingDown with
  | true =>
    rw [signalHandler_of_shuttingDown r sig s h, signalHandler_of_shuttingDown none sig s h]
    exact ⟨rfl, rfl⟩
  | false =>
    rw [signalHandler_of_fresh r sig s h, signalHandler_of_fresh none sig s h]
    exact ⟨rfl, rfl⟩

/-- Claim C5: in any signal sequence only the first signal triggers a
`shutdown()` call — delivering the first followed by any further signals
equals delivering the first alone (the flag set on first receipt makes
the rest no-ops), and after the first signal exactly one shutdown call
has happened. -/
theorem only_first_signal_triggers_shutdown (r : Option String) (sig : Sig) (rest : List Sig) :
    runSignals r (sig :: rest) initState = (signalHandler r sig initState).1 ∧
    ((signalHandler r sig initState).1).shutdownCalls = 1 ∧
    ((signalHandler r sig initState).1).shuttingDown = true := by
  refine ⟨runSignals_cons_init r sig rest, ?_, signalHandler_sets_flag r sig initState⟩
  rw [signalHandler_of_fresh r sig initState rfl]
  simp [initState]

/-- Claim C6: a termination signal received with no shutdown in progress
schedules a forced process exit after the fixed 5000 ms grace period with
exit code `128 + signal_number`. -/
theorem forced_exit_code_after_grace (r : Option String) (sig : Sig) (s : SigState)
    (h : s.shuttingDown = false) :
    ((signalHandler r sig s).1).scheduledExits = s.scheduledExits ++ [(5000, 128 + sigNum sig)] := by
  rw [signalHandler_of_fresh r sig s h]

/-- Claim C6, witness: SIGTERM (signal number 15) on the fresh state
schedules exit code 143 after the 5-second grace period. -/
theorem forced_exit_code_sigterm_witness :
    initState.shuttingDown = false ∧
    ((signalHandler none Sig.SIGTERM initState).1).scheduledExits = [(5000, 143)] := by
  refine ⟨rfl, ?_⟩
  rw [forced_exit_code_after_grace none Sig.SIGTERM initState rfl]
  decide

/-- Claim C10: when two termination signals arrive in sequence, the only
scheduled forced exit carries the code derived from the first signal —
in particular SIGINT then SIGTERM schedules 130, not 143. -/
theorem second_signal_does_not_reschedule (r : Option String) (a b : Sig) :
    (runSignals r [a, b] initState).scheduledExits = [(5000, 128 + sigNum a)] ∧
    128 + sigNum Sig.SIGINT = 130 ∧ 128 + sigNum Sig.SIGTERM = 143 := by
  refine ⟨?_, rfl, rfl⟩
  rw [runSignals_cons_init r a [b], signalHandler_of_fresh r a initState rfl]
  simp [initState]

/-- Claim C7: a liveness tick that finds the parent channel disconnected
exits the process immediately with code 1 — non-zero and distinct from
every signal-derived code — touching none of the graceful-shutdown state:
no `shutdown()` or `teardown()` call, no `shuttingDown` flag, no
scheduled exit; the timer interval is the fixed 5000 ms. -/
theorem orphan_tick_exits_without_shutdown (s : SigState) :
    (livenessTick false s).2 = some 1 ∧
    ((livenessTick false s).1).shutdownCalls = s.shutdownCalls ∧
    ((livenessTick false s).1).teardownCalls = s.teardownCalls ∧
    ((livenessTick false s).1).shuttingDown = s.shuttingDown ∧
    ((livenessTick false s).1).scheduledExits = s.scheduledExits ∧
    (1 : Nat) ≠ 0 ∧
    128 + sigNum Sig.SIGINT ≠ 1 ∧ 128 + sigNum Sig.SIGTERM ≠ 1 ∧
    livenessIntervalMs = 5000 := by
  refine ⟨rfl, rfl, rfl, rfl, rfl, ?_, ?_, ?_, rfl⟩ <;> decide

/-- Claim C9, counterexample: on a channel that exists but is currently
disconnected — `process.send` defined, `process.connected` false — the
source's guard passes and the send raises an asynchronous
ERR_IPC_CHANNEL_CLOSED error instead of being silently dropped: an error
is raised, refuting "no error is raised". -/
theorem send_disconnected_raises :
    sendMessage { hasSend := true, connected := false }
        ([] : List (SentEnvelope Unit)) MessageType.READY none
      = ([], some "ERR_IPC_CHANNEL_CLOSED") ∧
    ((sendMessage { hasSend := true, connected := false }
        ([] : List (SentEnvelope Unit)) MessageType.READY none).2 ≠ none) := by
  refine ⟨rfl, ?_⟩
  simp [sendMessage]

/-- Claim C9 (amended): `sendMessage` guards only on `process.send`
being defined.  With no IPC channel at all the envelope is silently
dropped (outbox unchanged, no error); on a connected channel the
envelope `\x7b id, data \x7d` is transmitted exactly as supplied; but on
a channel that exists and is merely disconnected, the send is not
dropped: it raises an asynchronous ERR_IPC_CHANNEL_CLOSED error, which
crashes the child since no error listener is registered. -/
theorem send_best_effort {α : Type} (outbox : List (SentEnvelope α))
    (msgType : MessageType) (d : Option α) (c : Bool) :
    sendMessage { hasSend := false, connected := c } outbox msgType d = (outbox, none) ∧
    sendMessage { hasSend := true, connected := true } outbox msgType d
      = (outbox ++ [{ id := msgType, data := d }], none) ∧
    sendMessage { hasSend := true, connected := false } outbox msgType d
      = (outbox, some "ERR_IPC_CHANNEL_CLOSED") :=
  ⟨rfl, rfl, rfl⟩

/-- Claim C3, counterexample: two concrete inbound envelopes refute the
claim.  A `null` envelope is malformed yet crashes the listener instead
of being ignored — `typeof null === "object"` passes the guard and
reading `message.id` on `null` throws a TypeError — and an out-of-state
START (controller still uninitialized) is not a no-op: the switch
invokes `startBridge` regardless of the controller's state. -/
theorem null_crash_and_unguarded_dispatch :
    onMessage JsMessage.nullMsg Phase.uninitialized
      = Except.error "TypeError: cannot read property id of null" ∧
    onMessage (JsMessage.object (some InboundId.START)) Phase.uninitialized
      = Except.ok (Phase.uninitialized, [DispatchAction.invokedStartBridge]) ∧
    [DispatchAction.invokedStartBridge] ≠ ([] : List DispatchAction) :=
  ⟨rfl, rfl, by decide⟩

/-- Claim C3 (amended): inbound envelopes that are non-object values, or
objects with a missing/falsy id, or objects whose id matches no switch
case, are silently ignored by the dispatcher as no-ops; but a `null`
envelope passes the typeof guard and crashes the listener with a
TypeError, and envelopes carrying LOAD or START are dispatched to the
controller without any state check, not ignored. -/
theorem malformed_envelopes_ignored (msg : JsMessage) (phase : Phase)
    (h : msg = JsMessage.nonObject ∨ msg = JsMessage.object none ∨
         msg = JsMessage.object (some InboundId.otherId)) :
    onMessage msg phase = Except.ok (phase, []) := by
  rcases h with h | h | h <;> subst h <;> rfl

/-- Claim C3, witness: a non-object envelope is dropped by the guard. -/
theorem malformed_envelopes_ignored_witness :
    (JsMessage.nonObject = JsMessage.nonObject ∨
      JsMessage.nonObject = JsMessage.object none ∨
      JsMessage.nonObject = JsMessage.object (some InboundId.otherId)) ∧
    onMessage JsMessage.nonObject Phase.uninitialized = Except.ok (Phase.uninitialized, []) :=
  ⟨Or.inl rfl, malformed_envelopes_ignored _ _ (Or.inl rfl)⟩

/-- Claim C8: in the `loadPlugin` trace every runtime-option application
(timestamp flag, debug flag, colour flag, custom storage path) occurs
strictly before the adapter-construction actions (HAP persistence path,
`HomebridgeAPI`, `PluginManager`), which do occur in the trace: no option
application ever follows an adapter-construction action. -/
theorem options_applied_before_adapter (d : ChildProcessLoadEventData) :
    optionsBeforeAdapters (loadPlugin d) = true ∧
    LoadAction.setHAPCustomStoragePath ∈ loadPlugin d ∧
    LoadAction.constructHomebridgeAPI ∈ loadPlugin d ∧
    LoadAction.constructPluginManager ∈ loadPlugin d := by
  refine ⟨?_, ?_, ?_, ?_⟩
  · have htail : optionsBeforeAdapters
        [LoadAction.setHAPCustomStoragePath,
         LoadAction.constructHomebridgeAPI,
         LoadAction.constructPluginManager,
         LoadAction.loadPluginByPath d.pluginPath,
         LoadAction.pluginLoad,
         LoadAction.initializePlugin d.identifier,
         LoadAction.setProcessTitle,
         LoadAction.sendLoaded] = true := by
      simp [optionsBeforeAdapters, isAdapterConstruction, isOptionApplication]
    have hmid := optionsBeforeAdapters_append_options (optionApplications d.bridgeOptions) _
      (optionApplications_all d.bridgeOptions) htail
    show optionsBeforeAdapters (LoadAction.deleteBridgeKey :: _) = true
    simp only [optionsBeforeAdapters, isAdapterConstruction, if_false, Bool.true_and]
    exact hmid
  · simp [loadPlugin]
  · simp [loadPlugin]
  · simp [loadPlugin]

/-- A concrete ACCESSORY-kind start environment whose configuration lacks
the `name` field. -/
def missingNameEnv : StartEnv :=
  { type := PluginType.accessory
    identifier := "example.accessory"
    pluginConfigName := none
    pluginIdentifier := "example-plugin"
    uuidBase := none
    capability := PlatformCapability.independentPlatform
    hapAccessoryCreated := true }

/-- Claim C1, counterexample: in the ACCESSORY branch aborted for a
missing display name, `startBridge` returns early after the warning —
it neither restores the remaining cached accessories nor publishes the
bridge nor signals the extension-loading subsystem, contrary to
"regardless of branch". -/
theorem start_missing_name_skips_publish :
    startBridge missingNameEnv
      = [Action.loadCachedFromDisk, Action.warnMissingName missingNameEnv.identifier] ∧
    Action.restoreCachedPlatformAccessories ∉ startBridge missingNameEnv ∧
    Action.publishBridge ∉ startBridge missingNameEnv ∧
    Action.signalFinished ∉ startBridge missingNameEnv := by
  refine ⟨rfl, ?_, ?_, ?_⟩ <;> decide

/-- Claim C1 (amended): for every `start()` invocation except the
ACCESSORY branch aborted for a missing display name — whose early return
skips the rest of the method — the controller, after the branch's own
actions, restores the remaining cached accessories, publishes the
runtime's bridge and signals the extension-loading subsystem that setup
finished, in that order. -/
theorem start_publishes_unless_missing_name (e : StartEnv)
    (h : ¬(e.type = PluginType.accessory ∧ jsTruthy e.pluginConfigName = none)) :
    startBridge e = Action.loadCachedFromDisk :: (startBranch e).1 ++
      [Action.restoreCachedPlatformAccessories, Action.publishBridge, Action.signalFinished] := by
  have hc : (startBranch e).2 = true := by
    obtain ⟨ty, ident, cn, pid, ub, cap, hap⟩ := e
    cases ty
    · rfl
    · cases hn : jsTruthy cn with
      | none => exact absurd ⟨rfl, hn⟩ h
      | some n => simp [startBranch, hn]
  simp [startBridge, hc]

/-- A concrete PLATFORM-kind start environment. -/
def platformEnv : StartEnv :=
  { type := PluginType.platform
    identifier := "example.platform"
    pluginConfigName := some "My Platform"
    pluginIdentifier := "example-plugin"
    uuidBase := none
    capability := PlatformCapability.staticPlatform
    hapAccessoryCreated := true }

/-- Claim C1, witness: a PLATFORM start runs to completion and ends with
restore, publish and signal-finished. -/
theorem start_publishes_platform_witness :
    ¬(platformEnv.type = PluginType.accessory ∧
        jsTruthy platformEnv.pluginConfigName = none) ∧
    startBridge platformEnv = Action.loadCachedFromDisk :: (startBranch platformEnv).1 ++
      [Action.restoreCachedPlatformAccessories, Action.publishBridge, Action.signalFinished] :=
  ⟨by decide, start_publishes_unless_missing_name platformEnv (by decide)⟩

end ChildBridge
